import Mathlib

/-!
# A shallow embedding of the `delivery_bobgo` Odoo module

This file models the data and the procedural methods of
`src/delivery_bobgo/models/delivery_bobgo.py`,
`src/delivery_bobgo/wizard/choose_bobgo_rate.py` and
`src/delivery_bobgo/models/stock_picking.py`, and proves properties of
the model.

Conventions of the embedding:
* Odoo `Char`-like record fields are `Option String` (`none` models the
  falsy "not set" value `False`/`None`); Python truthiness of such a
  field treats the empty string as falsy.
* Monetary and dimensional quantities are rationals; the Python values
  flowing into `_safe_float` are modelled by `PyValue`, on which the
  Python `float(...)` conversion raises `TypeError`/`ValueError` exactly
  as modelled by `pyFloat`.
* A raised Odoo `UserError` (and, where it occurs, a Python
  `TypeError`) is the `Except.error` branch of a result, carrying the
  message.
* HTTP traffic is an oracle: each `requests.post` call site receives an
  `HttpOutcome` (a status plus a parsed body, a timeout, or a connection
  failure); `response.raise_for_status()` raises exactly when the status
  is in `[400, 600)`, and the string `_extract_error_detail` would
  extract from an error response is carried alongside the status.
-/

namespace Bobgo

/-! ## Python-semantics helpers -/

/-- Truthiness of an optional string (Odoo `Char` field): `None`/`False`
and the empty string are falsy. -/
def strTruthy : Option String → Bool
  | none => false
  | some s => !s.data.isEmpty

/-- Python `a or d` for an optional string `a` and a string default `d`. -/
def pyOr (v : Option String) (d : String) : String :=
  match v with
  | none => d
  | some s => if s.data.isEmpty then d else s

/-- A Python value as it can reach the numeric helpers of the module:
`None`, a number (`int`/`float`/`bool`), a string, or some other object
on which `float(...)` raises `TypeError`. -/
inductive PyValue where
  | none
  | num (q : ℚ)
  | str (s : String)
  | other
deriving DecidableEq, Inhabited

/-- Python truthiness of a `PyValue`. -/
def pyTruthy : PyValue → Bool
  | .none => false
  | .num q => q ≠ 0
  | .str s => !s.data.isEmpty
  | .other => true

/-- Python `a or d` on `PyValue`s (used for `product.length_cm or 10`). -/
def pyOrVal (v : PyValue) (d : PyValue) : PyValue :=
  if pyTruthy v then v else d

/-- Python `s.strip()`: drop whitespace from both ends. -/
def pyStrip (s : String) : String :=
  String.mk (((s.data.dropWhile Char.isWhitespace).reverse.dropWhile Char.isWhitespace).reverse)

/-- Value of a list of decimal digit characters. -/
def digitsVal (l : List Char) : ℕ :=
  l.foldl (fun a c => a * 10 + (c.toNat - 48)) 0

/-- Split a character list at every `'.'`. -/
def splitOnDot : List Char → List (List Char)
  | [] => [[]]
  | '.' :: rest => [] :: splitOnDot rest
  | c :: rest =>
    match splitOnDot rest with
    | p :: ps => (c :: p) :: ps
    | [] => [[c]]

/-- Python `float(s)` on a string: optional surrounding whitespace, an
optional sign, then digits with at most one decimal point (at least one
digit overall). Returns `none` when Python would raise `ValueError`. -/
def pyParseFloat (s : String) : Option ℚ :=
  let t := (pyStrip s).data
  let (sign, u) : ℚ × List Char :=
    match t with
    | '-' :: r => (-1, r)
    | '+' :: r => (1, r)
    | r => (1, r)
  match splitOnDot u with
  | [ip] =>
    if ip ≠ [] ∧ ip.all Char.isDigit then
      some (sign * digitsVal ip)
    else none
  | [ip, fp] =>
    if (ip ≠ [] ∨ fp ≠ []) ∧ ip.all Char.isDigit ∧ fp.all Char.isDigit then
      some (sign * (digitsVal ip + digitsVal fp / 10 ^ fp.length))
    else none
  | _ => none

/-- Python `float(value)`: the `Except.error` branch is the exception
class Python raises (`TypeError` or `ValueError`). -/
def pyFloat : PyValue → Except String ℚ
  | .none => .error "TypeError"
  | .num q => .ok q
  | .str s =>
    match pyParseFloat s with
    | some q => .ok q
    | none => .error "ValueError"
  | .other => .error "TypeError"

/-- Python `int(q)` on a float: truncation toward zero. -/
def pyInt (q : ℚ) : ℤ :=
  if 0 ≤ q then Rat.floor q else -(Rat.floor (-q))

/-- Python string slicing `s[:n]` (by characters). -/
def pySlice (s : String) (n : ℕ) : String :=
  String.mk (s.data.take n)

/-- `l.startsWith p` on character lists. -/
def listStartsWith : List Char → List Char → Bool
  | _, [] => true
  | [], _ :: _ => false
  | c :: cs, p :: ps => c = p && listStartsWith cs ps

/-- Python `s.startswith(p)`. -/
def pyStartswith (s p : String) : Bool :=
  listStartsWith s.data p.data

/-- Interleave the pieces of a `%s`-split template with the arguments:
`interleave [p0, p1, ..., pn] [a1, ..., an] = p0 ++ a1 ++ p1 ++ ... ++ pn`. -/
def interleave : List String → List String → String
  | [p], [] => p
  | p :: ps, a :: rest => p ++ a ++ interleave ps rest
  | _, _ => ""

/-- Split a character list at every occurrence of `%s`. -/
def splitPercentS : List Char → List (List Char)
  | [] => [[]]
  | '%' :: 's' :: rest => [] :: splitPercentS rest
  | c :: rest =>
    match splitPercentS rest with
    | p :: ps => (c :: p) :: ps
    | [] => [[c]]

/-- Python `template % (a1, ..., an)` where the template's only
conversion specifiers are `%s`: succeeds exactly when the number of
`%s` placeholders equals the number of arguments, and raises
`TypeError` otherwise (as Python does). -/
def pyFormatS (template : String) (args : List String) : Except String String :=
  let parts := (splitPercentS template.data).map String.mk
  if parts.length = args.length + 1 then
    .ok (interleave parts args)
  else if parts.length < args.length + 1 then
    .error "TypeError: not all arguments converted during string formatting"
  else
    .error "TypeError: not enough arguments for format string"

/-- Split a character list at the first occurrence of `://`, returning
the parts before and after it. -/
def splitScheme : List Char → Option (List Char × List Char)
  | [] => none
  | ':' :: '/' :: '/' :: rest => some ([], rest)
  | c :: rest => (splitScheme rest).map (fun p => (c :: p.1, p.2))

/-- `urllib.parse.urljoin`, on the URL shapes the module uses: the base
is an absolute `scheme://netloc/path` URL. When the second argument
starts with `/` (the only form the module passes) the base's path is
replaced wholesale; otherwise the reference replaces the last path
segment. -/
def urljoin (base rel : String) : String :=
  match splitScheme base.data with
  | some (scheme, rest) =>
    let netloc := String.mk (rest.takeWhile (· ≠ '/'))
    let path := rest.dropWhile (· ≠ '/')
    if pyStartswith rel "/" then
      String.mk scheme ++ "://" ++ netloc ++ rel
    else if rel.data.isEmpty then
      base
    else
      let dir := String.mk (path.reverse.dropWhile (· ≠ '/')).reverse
      String.mk scheme ++ "://" ++ netloc ++ (if dir.data.isEmpty then "/" else dir) ++ rel
  | none => rel

/-! ## Data model

Each structure mirrors the fields the module reads from the
corresponding Odoo record. -/

/-- The fields of `res.partner` the module reads. -/
structure Partner where
  name : Option String
  street : Option String
  street2 : Option String
  city : Option String
  state_code : Option String     -- partner.state_id.code
  country_code : Option String   -- partner.country_id.code
  zip_code : Option String       -- partner.zip
  mobile : Option String
  phone : Option String
  email : Option String
deriving DecidableEq, Inhabited

/-- A Bobgo JSON address object. -/
structure Address where
  company : String
  street_address : String
  local_area : String
  city : String
  zone : String
  country : String
  code : String
deriving DecidableEq, Inhabited

/-- The fields of `delivery.carrier` the module reads. -/
structure Carrier where
  id : ℕ
  name : String
  delivery_type : String
  bobgo_api_key : Option String
  bobgo_test_mode : Bool
  bobgo_handling_time : ℤ
deriving DecidableEq, Inhabited

/-- The fields of `product.product` the module reads. -/
structure Product where
  display_name : Option String
  length_cm : PyValue
  width_cm : PyValue
  height_cm : PyValue
  weight : PyValue
deriving DecidableEq, Inhabited

/-- The fields of a `sale.order.line` the module reads. -/
structure OrderLine where
  is_delivery : Bool
  product_id : Option Product
  price_unit : PyValue
  product_uom_qty : PyValue
deriving DecidableEq, Inhabited

/-- The fields of `sale.order` the module reads. -/
structure Order where
  id : ℕ
  name : String
  warehouse_partner : Option Partner   -- order.warehouse_id.partner_id
  partner_shipping : Option Partner    -- order.partner_shipping_id
  order_line : List OrderLine
deriving DecidableEq, Inhabited

/-- An item of the `/rates-at-checkout` payload. -/
structure Item where
  description : String
  price : ℚ
  quantity : ℤ
  length_cm : ℚ
  width_cm : ℚ
  height_cm : ℚ
  weight_kg : ℚ
deriving DecidableEq, Inhabited

/-- The `/rates-at-checkout` request payload. -/
structure RatePayload where
  collection_address : Address
  delivery_address : Address
  items : List Item
  declared_value : ℚ
  handling_time : ℤ
deriving DecidableEq, Inhabited

/-- An outgoing POST request of the module (URL, auth header, payload). -/
structure HttpRequest (π : Type) where
  url : String
  authorization : String
  payload : π
deriving DecidableEq, Inhabited

/-! ## Carrier configuration -/

/-- `bobgo_get_api_base_url` (delivery_bobgo.py lines 61-66). -/
def bobgo_get_api_base_url (c : Carrier) : String :=
  if c.bobgo_test_mode then "https://api.sandbox.bobgo.co.za/v2"
  else "https://api.bobgo.co.za/v2"

/-- `bobgo_validate_configuration` (delivery_bobgo.py lines 68-82): raises
a `UserError` when the API key is falsy; otherwise it may rewrite the
`bobgo_api_key` field (the only field it writes) and returns `True`. -/
def bobgo_validate_configuration (c : Carrier) : Except String (Carrier × Bool) :=
  if !strTruthy c.bobgo_api_key then
    .error "Bobgo API Key is not configured. Please set it in the delivery method configuration."
  else
    let key := c.bobgo_api_key.getD ""
    if !pyStartswith key "Bearer " ∧ (pyStrip key).length > 10 then
      .ok ({ c with bobgo_api_key := some ("Bearer " ++ pyStrip key) }, true)
    else
      .ok (c, true)

/-! ## Address and item preparation -/

/-- `_prepare_collection_address` (delivery_bobgo.py lines 309-323). -/
def _prepare_collection_address (order : Order) : Except String Address :=
  match order.warehouse_partner with
  | none => .error "No warehouse configured for this order."
  | some p => .ok
    { company := pyOr p.name "Warehouse"
      street_address := pyOr p.street ""
      local_area := pyOr p.street2 ""
      city := pyOr p.city ""
      zone := pyOr p.state_code ""
      country := pyOr p.country_code "ZA"
      code := pyOr p.zip_code "" }

/-- `_prepare_delivery_address` (delivery_bobgo.py lines 325-339). -/
def _prepare_delivery_address (order : Order) : Except String Address :=
  match order.partner_shipping with
  | none => .error "No shipping address configured for this order."
  | some p => .ok
    { company := pyOr p.name ""
      street_address := pyOr p.street ""
      local_area := pyOr p.street2 ""
      city := pyOr p.city ""
      zone := pyOr p.state_code ""
      country := pyOr p.country_code "ZA"
      code := pyOr p.zip_code "" }

/-- `_safe_float` (delivery_bobgo.py lines 406-418): `None` and values on
which `float` raises `TypeError`/`ValueError` give the default, as does a
converted value `≤ 0`; a strictly positive conversion is returned. -/
def _safe_float (value : PyValue) (default : ℚ) : ℚ :=
  match value with
  | .none => default
  | v =>
    match pyFloat v with
    | .ok r => if r ≤ 0 then default else r
    | .error _ => default

/-- `_prepare_order_items` (delivery_bobgo.py lines 341-372), on the
order lines kept by `filtered(lambda l: not l.is_delivery and
l.product_id)`: returns the item list and the accumulated declared
value. -/
def _prepare_order_items : List OrderLine → List Item × ℚ
  | [] => ([], 0)
  | l :: ls =>
    let rest := _prepare_order_items ls
    match l.product_id with
    | none => rest
    | some product =>
      if l.is_delivery then rest
      else
        let length_cm := _safe_float product.length_cm 10
        let width_cm := _safe_float product.width_cm 10
        let height_cm := _safe_float product.height_cm 10
        let weight_kg := _safe_float product.weight (1/5)
        let price := _safe_float l.price_unit 0
        let quantity := _safe_float l.product_uom_qty 1
        let item : Item :=
          { description := pySlice (pyOr product.display_name "Product") 100
            price := price
            quantity := max 1 (pyInt quantity)
            length_cm := max (1/10) length_cm
            width_cm := max (1/10) width_cm
            height_cm := max (1/10) height_cm
            weight_kg := max (1/100) weight_kg }
        (item :: rest.1, price * quantity + rest.2)

/-! ## Rate quoting (`bobgo_rate_shipment`) -/

/-- The request-building prefix of `bobgo_rate_shipment`
(delivery_bobgo.py lines 224-261): validates the order data, builds the
addresses and items, and assembles the payload, the URL
`urljoin(base_url, "/rates-at-checkout")` and the `Authorization`
header. Raised `UserError`s are the `Except.error` branch. -/
def bobgo_rate_request (c : Carrier) (order : Order) :
    Except String (HttpRequest RatePayload) :=
  if order.order_line.isEmpty then
    .error "Cannot calculate shipping for empty order."
  else
    match _prepare_collection_address order with
    | .error m => .error m
    | .ok collection =>
      match _prepare_delivery_address order with
      | .error m => .error m
      | .ok delivery =>
        let pr := _prepare_order_items order.order_line
        if pr.1.isEmpty then
          .error "No shippable items found in the order."
        else
          .ok
            { url := urljoin (bobgo_get_api_base_url c) "/rates-at-checkout"
              authorization := c.bobgo_api_key.getD ""
              payload :=
                { collection_address := collection
                  delivery_address := delivery
                  items := pr.1
                  declared_value := pr.2
                  handling_time := max 0 c.bobgo_handling_time } }

/-! ## HTTP outcomes and error formatting -/

/-- A raised exception the embedding distinguishes: Odoo `UserError`
or Python `TypeError`. -/
inductive PyExc where
  | userError (msg : String)
  | typeError (msg : String)
deriving DecidableEq

/-- The outcome of one `requests.post` call: a response with its status,
the string `_extract_error_detail` would pull out of it, and the result
of `response.json()` parsing (`Except.error ()` models `ValueError`);
or a `requests.exceptions.Timeout`; or a
`requests.exceptions.ConnectionError`. -/
inductive HttpOutcome (β : Type) where
  | response (status : ℕ) (errorDetail : String) (body : Except Unit β)
  | timeout
  | connectionError

/-- `response.raise_for_status()` raises `HTTPError` exactly for
4xx/5xx statuses. -/
def raisesForStatus (status : ℕ) : Bool :=
  400 ≤ status ∧ status < 600

/-- The `error_messages` lookup table of `_format_http_error`
(delivery_bobgo.py lines 433-441): `error_messages.get(status_code,
generic)` as an if-chain over the seven tabled statuses. -/
def error_messages_get (status_code : ℕ) : String :=
  if status_code = 400 then "Bad request to Bobgo API: %s"
  else if status_code = 401 then "Authentication failed. Please check your Bobgo API key."
  else if status_code = 403 then "Access forbidden. Your API key may not have the required permissions."
  else if status_code = 429 then "Rate limit exceeded. Please try again later."
  else if status_code = 500 then "Bobgo API server error. Please try again later."
  else if status_code = 502 then "Bobgo API is temporarily unavailable. Please try again later."
  else if status_code = 503 then "Bobgo API service is temporarily overloaded. Please try again later."
  else "Bobgo API returned error (HTTP %s): %s"

/-- `_format_http_error` (delivery_bobgo.py lines 431-443):
`error_messages.get(status_code, generic) % (status_code, error_detail)`.
The `Except.error` branch is a raised `TypeError` from the `%`
formatting. -/
def _format_http_error (status_code : ℕ) (error_detail : String) :
    Except String String :=
  pyFormatS (error_messages_get status_code) [toString status_code, error_detail]

/-- The statuses `_format_http_error` has a specific message for. -/
def formatTableStatuses : List ℕ := [400, 401, 403, 429, 500, 502, 503]

/-! ## Rate quoting: response handling and the selection wizard -/

/-- One rate of a Bobgo rates response. A field is `none` when the key
is absent from the JSON object. -/
structure Rate where
  service_name : Option String
  description : Option String
  total_price : Option ℚ
  min_delivery_date : Option String
  max_delivery_date : Option String
  service_code : Option String
  provider_slug : Option String
  service_level_code : Option String
deriving DecidableEq, Inhabited

/-- The parsed body of a rates response: `data.get("rates")`. -/
structure RatesBody where
  rates : Option (List Rate)
deriving DecidableEq, Inhabited

/-- The values `_create_rate_selection_wizard` puts on one
`choose.bobgo.rate.line`. -/
structure WizardLineVals where
  service_name : String
  description : String
  total_price : ℚ
  delivery_date_min : Option String
  delivery_date_max : Option String
  service_code : Option String
  provider_slug : Option String
deriving DecidableEq, Inhabited

/-- The `ir.actions.act_window` returned by
`_create_rate_selection_wizard` (delivery_bobgo.py lines 374-404),
carrying the created wizard's content. -/
structure RateAction where
  order_id : ℕ
  carrier_id : ℕ
  lines : List WizardLineVals
deriving DecidableEq, Inhabited

/-- `_create_rate_selection_wizard` (delivery_bobgo.py lines 374-404). -/
def _create_rate_selection_wizard (c : Carrier) (order : Order)
    (rates : List Rate) : RateAction :=
  { order_id := order.id
    carrier_id := c.id
    lines := rates.map fun r =>
      { service_name := r.service_name.getD "Unknown Service"
        description := r.description.getD ""
        total_price := r.total_price.getD 0
        delivery_date_min := r.min_delivery_date
        delivery_date_max := r.max_delivery_date
        service_code := r.service_code
        provider_slug := r.provider_slug } }

/-- Python truthiness of `data.get("rates")`: falsy when the key is
absent or the list is empty. -/
def ratesTruthy : Option (List Rate) → Bool
  | none => false
  | some rs => !rs.isEmpty

/-- `bobgo_rate_shipment` (delivery_bobgo.py lines 224-307): builds the
request, then handles the oracle outcome of `requests.post` exactly as
the `try`/`except` chain does. The `Except.error` branch is the
exception that escapes to the caller. -/
def bobgo_rate_shipment (c : Carrier) (order : Order)
    (http : HttpOutcome RatesBody) : Except PyExc RateAction :=
  match bobgo_rate_request c order with
  | .error m => .error (.userError m)
  | .ok _req =>
    match http with
    | .timeout => .error (.userError "Shipping rate request timed out. Please try again.")
    | .connectionError =>
      .error (.userError "Cannot connect to Bobgo API. Please check your internet connection and try again.")
    | .response status errorDetail body =>
      if raisesForStatus status then
        match _format_http_error status errorDetail with
        | .ok msg => .error (.userError msg)
        | .error e => .error (.typeError e)
      else
        match body with
        | .error _ => .error (.userError "Invalid response from Bobgo API. Please try again.")
        | .ok data =>
          if !ratesTruthy data.rates then
            .error (.userError "No shipping rates available for the given addresses. Please check the addresses or try again later.")
          else
            .ok (_create_rate_selection_wizard c order (data.rates.getD []))

/-! ## Rate caching (`rate_shipment`) -/

/-- `BOBGO_CACHE_DURATION` (delivery_bobgo.py line 14). -/
def BOBGO_CACHE_DURATION : ℕ := 300

/-- The cache key built at delivery_bobgo.py line 199. -/
def bobgo_rates_cache_key (order_id carrier_id : ℕ) : String :=
  "bobgo_rates_" ++ toString order_id ++ "_" ++ toString carrier_id

/-- Modelled from the spec: the host framework's generic cache helper
(`self.env.cache`, spec section 2: "a one-line reference to a generic
framework cache helper"), used as a key-value store with expiry times.
An entry is a key, a stored value and its absolute expiry instant. -/
def Cache : Type := List (String × RateAction × ℕ)

/-- Modelled from the spec: `env.cache.get(key)` returns a value stored
under `key` whose expiry lies after the current instant. -/
def cache_get (cache : Cache) (now : ℕ) (key : String) : Option RateAction :=
  ((cache.filter fun e => e.1 == key && decide (now < e.2.2)).head?).map (·.2.1)

/-- Modelled from the spec: `env.cache.set(key, value, duration)` stores
`value` under `key` until `now + duration`. -/
def cache_set (cache : Cache) (now : ℕ) (key : String) (v : RateAction)
    (duration : ℕ) : Cache :=
  (key, v, now + duration) :: cache

/-- What `rate_shipment` does for a `bobgo`-type carrier. -/
inductive RateShipmentResult where
  /-- The carrier is not a Bobgo carrier: defer to `super()`. -/
  | superResult
  /-- A value is returned (the rate-selection action), together with the
  cache and carrier states after the call. -/
  | value (a : RateAction) (cache : Cache) (c : Carrier)
  /-- A `UserError` escapes to the caller. -/
  | raised (e : PyExc) (cache : Cache) (c : Carrier)
  /-- The generic `except Exception` branch returns the
  `success: False, price: 0.0` dictionary. -/
  | failureDict (cache : Cache) (c : Carrier)

/-- `rate_shipment` (delivery_bobgo.py lines 186-222): validates the
configuration, consults the cache, otherwise calls
`bobgo_rate_shipment` and caches a fresh response for
`BOBGO_CACHE_DURATION` seconds. A `UserError` is re-raised; any other
exception becomes the failure dictionary. -/
def rate_shipment (c : Carrier) (order : Order) (cache : Cache) (now : ℕ)
    (http : HttpOutcome RatesBody) : RateShipmentResult :=
  if c.delivery_type ≠ "bobgo" then .superResult
  else
    match bobgo_validate_configuration c with
    | .error m => .raised (.userError m) cache c
    | .ok (c', _) =>
      let key := bobgo_rates_cache_key order.id c.id
      match cache_get cache now key with
      | some cached => .value cached cache c'
      | none =>
        match bobgo_rate_shipment c' order http with
        | .ok response =>
          .value response (cache_set cache now key response BOBGO_CACHE_DURATION) c'
        | .error (.userError m) => .raised (.userError m) cache c'
        | .error (.typeError _) => .failureDict cache c'

/-! ## Shipment booking (`bobgo_send_shipping`) -/

/-- The fields of a `stock.move` the module reads. -/
structure Move where
  product : Option Product            -- move.product_id
  sale_line_price_total : Option ℚ    -- move.sale_line_id.price_total; none when no sale line
deriving DecidableEq, Inhabited

/-- The fields of `stock.picking` the module reads and writes. -/
structure Picking where
  name : String
  partner : Option Partner             -- picking.partner_id
  warehouse_partner : Option Partner   -- picking.picking_type_id.warehouse_id.partner_id
  carrier_tracking_ref : Option String
  bobgo_shipment_id : Option String
  moves : List Move
deriving DecidableEq, Inhabited

/-- A parcel of the shipment-rate payload. -/
structure Parcel where
  description : String
  submitted_length_cm : PyValue
  submitted_width_cm : PyValue
  submitted_height_cm : PyValue
  submitted_weight_kg : PyValue
deriving DecidableEq, Inhabited

/-- A contact as returned by `_get_collection_contact` /
`_get_delivery_contact` (delivery_bobgo.py lines 608-624). -/
structure Contact where
  name : String
  phone : String
  email : String
deriving DecidableEq, Inhabited

/-- The `/rates` payload built by `_prepare_shipment_rate_payload`. -/
structure ShipmentRatePayload where
  collection_address : Address
  delivery_address : Address
  parcels : List Parcel
  declared_value : ℚ
  collection_contact : Contact
  delivery_contact : Contact
  timeout : ℕ
deriving DecidableEq, Inhabited

/-- Contact extraction shared by `_get_collection_contact` and
`_get_delivery_contact`: `name or ''`, `mobile or phone or ''`,
`email or ''`. -/
def contact_of_partner (p : Partner) : Contact :=
  { name := pyOr p.name ""
    phone := pyOr p.mobile (pyOr p.phone "")
    email := pyOr p.email "" }

/-- The parcels loop of `_prepare_shipment_rate_payload`
(delivery_bobgo.py lines 546-555): `product.display_name[:100]` is a
`TypeError` when `display_name` is falsy (slicing a non-string), and the
dimensions use Python `or` with defaults `10`/`0.2`. -/
def buildParcels : List Move → Except PyExc (List Parcel)
  | [] => .ok []
  | m :: ms =>
    match m.product with
    | none => buildParcels ms
    | some product =>
      match product.display_name with
      | none => .error (.typeError "display_name is not subscriptable")
      | some dn =>
        match buildParcels ms with
        | .error e => .error e
        | .ok rest =>
          .ok ({ description := pySlice dn 100
                 submitted_length_cm := pyOrVal product.length_cm (.num 10)
                 submitted_width_cm := pyOrVal product.width_cm (.num 10)
                 submitted_height_cm := pyOrVal product.height_cm (.num 10)
                 submitted_weight_kg := pyOrVal product.weight (.num (1/5)) } :: rest)

/-- The default parcel appended when the picking has no product moves
(delivery_bobgo.py lines 557-564). -/
def defaultParcel : Parcel :=
  { description := "Default Package"
    submitted_length_cm := .num 10
    submitted_width_cm := .num 10
    submitted_height_cm := .num 10
    submitted_weight_kg := .num (1/5) }

/-- `declared_value` of the shipment-rate payload: the sum of
`move.sale_line_id.price_total` over moves with a sale line, with the
final `or 0` being the identity on rationals. -/
def shipmentDeclaredValue (moves : List Move) : ℚ :=
  (moves.filterMap (·.sale_line_price_total)).sum

/-- `_prepare_shipment_rate_payload` (delivery_bobgo.py lines 514-582). -/
def _prepare_shipment_rate_payload (p : Picking) :
    Except PyExc ShipmentRatePayload :=
  match p.warehouse_partner with
  | none => .error (.userError "No warehouse partner configured for this picking.")
  | some wp =>
    match p.partner with
    | none => .error (.userError "No delivery partner configured for this picking.")
    | some dp =>
      let collection : Address :=
        { company := pyOr wp.name "Warehouse"
          street_address := pyOr wp.street ""
          local_area := pyOr wp.street2 ""
          city := pyOr wp.city ""
          zone := pyOr wp.state_code ""
          country := pyOr wp.country_code "ZA"
          code := pyOr wp.zip_code "" }
      let delivery : Address :=
        { company := pyOr dp.name ""
          street_address := pyOr dp.street ""
          local_area := pyOr dp.street2 ""
          city := pyOr dp.city ""
          zone := pyOr dp.state_code ""
          country := pyOr dp.country_code "ZA"
          code := pyOr dp.zip_code "" }
      match buildParcels p.moves with
      | .error e => .error e
      | .ok parcels =>
        .ok
          { collection_address := collection
            delivery_address := delivery
            parcels := if parcels.isEmpty then [defaultParcel] else parcels
            declared_value := shipmentDeclaredValue p.moves
            collection_contact := contact_of_partner wp
            delivery_contact := contact_of_partner dp
            timeout := 10000 }

/-- The `/shipments` payload built by `_prepare_shipment_payload`
(delivery_bobgo.py lines 584-606): the shipment-rate payload's addresses
and contacts plus the selected rate's codes. -/
structure ShipmentPayload where
  collection_address : Address
  delivery_address : Address
  parcels : List Parcel
  declared_value : ℚ
  collection_contact : Contact
  delivery_contact : Contact
  timeout : ℕ
  service_level_code : Option String
  provider_slug : Option String
deriving DecidableEq, Inhabited

/-- `_prepare_shipment_payload` (delivery_bobgo.py lines 584-606):
recomputes `_prepare_shipment_rate_payload` and adds the rate's codes. -/
def _prepare_shipment_payload (p : Picking) (rate : Rate) :
    Except PyExc ShipmentPayload :=
  match _prepare_shipment_rate_payload p with
  | .error e => .error e
  | .ok rp =>
    .ok
      { collection_address := rp.collection_address
        delivery_address := rp.delivery_address
        parcels := rp.parcels
        declared_value := rp.declared_value
        collection_contact := rp.collection_contact
        delivery_contact := rp.delivery_contact
        timeout := 20000
        service_level_code := rate.service_level_code
        provider_slug := rate.provider_slug }

/-- The parsed body of a `/shipments` response: the fields
`bobgo_send_shipping` reads. -/
structure ShipmentBody where
  id : Option String
  tracking_reference : Option String
deriving DecidableEq, Inhabited

/-- An exception arising inside the per-picking `try` of
`bobgo_send_shipping`, before it is wrapped. -/
inductive BookExc where
  | user (msg : String)
  | typeErr (msg : String)
  | httpError (status : ℕ)
  | timeoutExc
  | connExc
  | valueErr
deriving DecidableEq

/-- Models Python `str(e)` on the inner exception. An Odoo `UserError`
prints its message; the strings of the `requests` exception classes are
not inspected by any property, so they are modelled schematically. -/
def bookExcStr : BookExc → String
  | .user m => m
  | .typeErr m => m
  | .httpError s => toString s ++ " Error"
  | .timeoutExc => ""
  | .connExc => ""
  | .valueErr => ""

/-- The wrapping at delivery_bobgo.py lines 508-510:
`UserError(_("Failed to book shipment for %s: %s") % (picking.name,
str(e)))` — here the template's two placeholders match the two
arguments, so the formatting succeeds. -/
def bookFailure (pname : String) (e : BookExc) : PyExc :=
  .userError ("Failed to book shipment for " ++ pname ++ ": " ++ bookExcStr e)

/-- The oracle outcomes of the two POSTs one picking triggers in
`bobgo_send_shipping`: the `/rates` call and the `/shipments` call. -/
structure BookCalls where
  rateOutcome : HttpOutcome RatesBody
  shipmentOutcome : HttpOutcome ShipmentBody

/-- One entry of the list `bobgo_send_shipping` returns to Odoo. -/
structure DeliveryResult where
  exact_price : ℚ
  tracking_number : Option String
deriving DecidableEq, Inhabited

/-- The body of the per-picking loop of `bobgo_send_shipping`
(delivery_bobgo.py lines 450-510): on success, the updated picking, the
result entry and the carrier state after `bobgo_validate_configuration`;
on any inner exception, the wrapped `UserError`. -/
def bobgo_send_shipping_one (c : Carrier) (p : Picking) (calls : BookCalls) :
    Except PyExc (Picking × DeliveryResult × Carrier) :=
  match bobgo_validate_configuration c with
  | .error m => .error (bookFailure p.name (.user m))
  | .ok (c', _) =>
    match _prepare_shipment_rate_payload p with
    | .error (.userError m) => .error (bookFailure p.name (.user m))
    | .error (.typeError m) => .error (bookFailure p.name (.typeErr m))
    | .ok _rate_payload =>
      match calls.rateOutcome with
      | .timeout => .error (bookFailure p.name .timeoutExc)
      | .connectionError => .error (bookFailure p.name .connExc)
      | .response status _ body =>
        if raisesForStatus status then
          .error (bookFailure p.name (.httpError status))
        else
          match body with
          | .error _ => .error (bookFailure p.name .valueErr)
          | .ok rates_data =>
            match rates_data.rates with
            | some (selected_rate :: _) =>
              match _prepare_shipment_payload p selected_rate with
              | .error (.userError m) => .error (bookFailure p.name (.user m))
              | .error (.typeError m) => .error (bookFailure p.name (.typeErr m))
              | .ok _shipment_payload =>
                match calls.shipmentOutcome with
                | .timeout => .error (bookFailure p.name .timeoutExc)
                | .connectionError => .error (bookFailure p.name .connExc)
                | .response status2 _ body2 =>
                  if raisesForStatus status2 then
                    .error (bookFailure p.name (.httpError status2))
                  else
                    match body2 with
                    | .error _ => .error (bookFailure p.name .valueErr)
                    | .ok shipment_data =>
                      let tracking_reference := shipment_data.tracking_reference
                      .ok
                        ({ p with
                            bobgo_shipment_id := shipment_data.id
                            carrier_tracking_ref := tracking_reference },
                          { exact_price := selected_rate.total_price.getD 0
                            tracking_number := tracking_reference },
                          c')
            | _ =>
              .error (bookFailure p.name (.user "No shipment rates available for this delivery."))

/-- `bobgo_send_shipping` (delivery_bobgo.py lines 445-512) over the
pickings, threading the carrier state (the API key may be rewritten by
the first validation): on success, the updated pickings paired with the
result entries, in order. -/
def bobgo_send_shipping (c : Carrier) :
    List (Picking × BookCalls) →
    Except PyExc (List (Picking × DeliveryResult) × Carrier)
  | [] => .ok ([], c)
  | (p, calls) :: rest =>
    match bobgo_send_shipping_one c p calls with
    | .error e => .error e
    | .ok (p', r, c') =>
      match bobgo_send_shipping c' rest with
      | .error e => .error e
      | .ok (out, cf) => .ok ((p', r) :: out, cf)

/-! ## Shipment cancellation (`bobgo_cancel_shipment`) -/

/-- The oracle outcome of the `/shipments/cancel` POST for one picking:
a status, a timeout, or some other exception. -/
inductive CancelOutcome where
  | response (status : ℕ)
  | timeout
  | exc
deriving DecidableEq

/-- The loop of `bobgo_cancel_shipment` (delivery_bobgo.py lines
633-670): returns the updated pickings and the number of failed
cancellations. A picking without a tracking reference, a non-200
status, and any exception all just count as failures; only a 200 clears
the picking's references. -/
def bobgo_cancel_loop : List (Picking × CancelOutcome) → List Picking × ℕ
  | [] => ([], 0)
  | (p, o) :: rest =>
    let (ps, nf) := bobgo_cancel_loop rest
    if !strTruthy p.carrier_tracking_ref then (p :: ps, nf + 1)
    else
      match o with
      | .response status =>
        if status = 200 then
          ({ p with carrier_tracking_ref := none, bobgo_shipment_id := none } :: ps, nf)
        else (p :: ps, nf + 1)
      | .timeout => (p :: ps, nf + 1)
      | .exc => (p :: ps, nf + 1)

/-- `bobgo_cancel_shipment` (delivery_bobgo.py lines 626-678): never
raises; returns the updated pickings and `len(failed_cancellations) == 0`. -/
def bobgo_cancel_shipment (_c : Carrier)
    (inputs : List (Picking × CancelOutcome)) : List Picking × Bool :=
  let (ps, failed) := bobgo_cancel_loop inputs
  (ps, failed == 0)

/-! ## The rate-selection wizard (`choose_bobgo_rate.py`) -/

/-- The fields of a `sale.order.line` the wizard reads and writes. -/
structure SaleOrderLine where
  is_delivery : Bool
  line_name : String
  price_unit : ℚ
deriving DecidableEq, Inhabited

/-- The fields of the `sale.order` the wizard works on. -/
structure SaleOrder where
  name : String
  lines : List SaleOrderLine
deriving DecidableEq, Inhabited

/-- The `choose.bobgo.rate` wizard record. -/
structure RateWizard where
  order_id : Option SaleOrder
  carrier_id : Option Carrier
deriving Inhabited

/-- The fields of a `choose.bobgo.rate.line` that `action_apply_rate`
reads. -/
structure ChooseRateLine where
  service_name : String
  total_price : ℚ
deriving DecidableEq, Inhabited

/-- The result of `action_apply_rate`: the window-close action together
with the resulting order state, or a raised `UserError`. -/
inductive ApplyRateResult where
  | closeWindow (order : SaleOrder)
  | raised (msg : String)

/-- `action_apply_rate` (choose_bobgo_rate.py lines 86-128). The host
framework's `sale.order.set_delivery_line` is an abstract parameter
`sdl` returning its boolean result and the order state it leaves
behind (per the spec, the wizard exists to "copy a chosen price back
onto a sales order line" through this framework call). An inner
failure is re-raised as `UserError("Error applying shipping rate: %s"
% str(e))`; the `ir.logging` row created on success has no modelled
observable effect. -/
def action_apply_rate (w : RateWizard) (line : ChooseRateLine)
    (sdl : SaleOrder → Carrier → ℚ → Bool × SaleOrder) : ApplyRateResult :=
  match w.order_id, w.carrier_id with
  | none, _ => .raised "Invalid rate selection data."
  | some _, none => .raised "Invalid rate selection data."
  | some o, some c =>
    let (success, o') := sdl o c line.total_price
    if !success then
      .raised ("Error applying shipping rate: " ++ "Failed to apply shipping rate to the order.")
    else
      let service_description :=
        if !line.service_name.data.isEmpty ∧ line.service_name ≠ "Unknown Service" then
          c.name ++ " - " ++ line.service_name
        else c.name
      let o'' :=
        if o'.lines.any (·.is_delivery) then
          { o' with
              lines := o'.lines.map fun l =>
                if l.is_delivery then
                  { l with line_name := service_description, price_unit := line.total_price }
                else l }
        else o'
      .closeWindow o''

/-! ## Concrete example records (used by the witnesses) -/

/-- An example partner with all address fields set. -/
def exPartner : Partner :=
  { name := some "Acme Warehouse"
    street := some "1 Main Rd"
    street2 := none
    city := some "Pretoria"
    state_code := some "GP"
    country_code := some "ZA"
    zip_code := some "0181"
    mobile := none
    phone := some "0123456789"
    email := some "warehouse@acme.test" }

/-- An example product. -/
def exProduct : Product :=
  { display_name := some "Widget"
    length_cm := .num 17
    width_cm := .num 8
    height_cm := .num 5
    weight := .num (1/2) }

/-- An example non-delivery order line with a product. -/
def exOrderLine : OrderLine :=
  { is_delivery := false
    product_id := some exProduct
    price_unit := .num 200
    product_uom_qty := .num 1 }

/-- An example sale order with both partners configured. -/
def exOrder : Order :=
  { id := 42
    name := "S00042"
    warehouse_partner := some exPartner
    partner_shipping := some exPartner
    order_line := [exOrderLine] }

/-- An example Bobgo carrier in sandbox mode whose API key lacks the
`Bearer ` marker. -/
def exCarrier : Carrier :=
  { id := 7
    name := "Bobgo"
    delivery_type := "bobgo"
    bobgo_api_key := some "abcdefghijk1234567890"
    bobgo_test_mode := true
    bobgo_handling_time := 1 }

/-- `exCarrier` after `bobgo_validate_configuration` rewrote its key. -/
def exCarrierValidated : Carrier :=
  { exCarrier with bobgo_api_key := some "Bearer abcdefghijk1234567890" }

/-- The request `bobgo_rate_request` builds for `exCarrier`/`exOrder`. -/
def exRateRequest : HttpRequest RatePayload :=
  (bobgo_rate_request exCarrier exOrder).toOption.getD default

/-! ## Helper lemmas -/

theorem listStartsWith_append (p l : List Char) : listStartsWith (p ++ l) p = true := by
  induction p with
  | nil => cases l <;> rfl
  | cons c cs ih => simpa [listStartsWith] using ih

theorem pyStartswith_append (p s : String) : pyStartswith (p ++ s) p = true := by
  unfold pyStartswith
  rw [String.data_append]
  exact listStartsWith_append p.data s.data

theorem strTruthy_bearer (s : String) : strTruthy (some ("Bearer " ++ s)) = true := by
  show (!(("Bearer " ++ s).data.isEmpty)) = true
  rw [String.data_append]
  rfl

/-! ## C10 -/

/-- C10: `bobgo_validate_configuration` raises a `UserError` exactly
when the API key is falsy; otherwise it returns `True`, changes no
carrier field except possibly `bobgo_api_key`, rewrites the key to
`"Bearer " ++ stripped key` exactly when the key does not start with
`"Bearer "` and its stripped length exceeds 10, and is idempotent: a
second call leaves the result unchanged. -/
theorem C10_validate_configuration (c : Carrier) :
    ((∃ m, bobgo_validate_configuration c = .error m) ↔ strTruthy c.bobgo_api_key = false) ∧
    (∀ c' b, bobgo_validate_configuration c = .ok (c', b) →
      b = true ∧
      c'.id = c.id ∧ c'.name = c.name ∧ c'.delivery_type = c.delivery_type ∧
      c'.bobgo_test_mode = c.bobgo_test_mode ∧
      c'.bobgo_handling_time = c.bobgo_handling_time ∧
      (∀ k, c.bobgo_api_key = some k →
        (pyStartswith k "Bearer " = false ∧ 10 < (pyStrip k).length →
          c'.bobgo_api_key = some ("Bearer " ++ pyStrip k)) ∧
        (¬(pyStartswith k "Bearer " = false ∧ 10 < (pyStrip k).length) →
          c'.bobgo_api_key = c.bobgo_api_key)) ∧
      bobgo_validate_configuration c' = .ok (c', true)) := by
  obtain ⟨cid, cname, cdt, ckey, ctm, cht⟩ := c
  cases ckey with
  | none =>
    constructor
    · simp [bobgo_validate_configuration, strTruthy]
    · intro c' b hok
      simp [bobgo_validate_configuration, strTruthy] at hok
  | some k =>
    by_cases hk : k.data.isEmpty
    · constructor
      · simp [bobgo_validate_configuration, strTruthy, hk]
      · intro c' b hok
        simp [bobgo_validate_configuration, strTruthy, hk] at hok
    · by_cases hc1 : pyStartswith k "Bearer "
      · constructor
        · simp [bobgo_validate_configuration, strTruthy, hk, hc1]
        · intro c' b hok
          simp [bobgo_validate_configuration, strTruthy, hk, hc1] at hok
          obtain ⟨hc', hb⟩ := hok
          subst hc'; subst hb
          refine ⟨rfl, rfl, rfl, rfl, rfl, rfl, ?_, ?_⟩
          · intro k' hk'
            replace hk' : k = k' := Option.some.inj hk'
            subst hk'
            refine ⟨fun hx => absurd hx.1 (by simp [hc1]), fun _ => rfl⟩
          · simp [bobgo_validate_configuration, strTruthy, hk, hc1]
      · by_cases hlen : 10 < (pyStrip k).length
        · constructor
          · simp [bobgo_validate_configuration, strTruthy, hk, hc1, hlen]
          · intro c' b hok
            simp [bobgo_validate_configuration, strTruthy, hk, hc1, hlen] at hok
            obtain ⟨hc', hb⟩ := hok
            subst hc'; subst hb
            refine ⟨rfl, rfl, rfl, rfl, rfl, rfl, ?_, ?_⟩
            · intro k' hk'
              replace hk' : k = k' := Option.some.inj hk'
              subst hk'
              refine ⟨fun _ => rfl, fun hn => absurd ?_ hn⟩
              exact ⟨by simpa using hc1, hlen⟩
            · simp [bobgo_validate_configuration, strTruthy_bearer, pyStartswith_append]
        · constructor
          · simp [bobgo_validate_configuration, strTruthy, hk, hc1, hlen]
          · intro c' b hok
            simp [bobgo_validate_configuration, strTruthy, hk, hc1, hlen] at hok
            obtain ⟨hc', hb⟩ := hok
            subst hc'; subst hb
            refine ⟨rfl, rfl, rfl, rfl, rfl, rfl, ?_, ?_⟩
            · intro k' hk'
              replace hk' : k = k' := Option.some.inj hk'
              subst hk'
              refine ⟨fun hx => absurd hx.2 hlen, fun _ => rfl⟩
            · simp [bobgo_validate_configuration, strTruthy, hk, hc1, hlen]

/-- Witness for C10 at `exCarrier`: the key is rewritten with the
`Bearer ` marker and a second validation leaves it unchanged. -/
theorem C10_validate_configuration_witness :
    bobgo_validate_configuration exCarrier = .ok (exCarrierValidated, true) ∧
    exCarrierValidated.bobgo_api_key = some ("Bearer " ++ pyStrip "abcdefghijk1234567890") ∧
    bobgo_validate_configuration exCarrierValidated = .ok (exCarrierValidated, true) := by
  have h := (C10_validate_configuration exCarrier).2 exCarrierValidated true (by rfl)
  exact ⟨by rfl, (h.2.2.2.2.2.2.1 "abcdefghijk1234567890" rfl).1 ⟨by rfl, by decide⟩,
    h.2.2.2.2.2.2.2⟩

/-! ## C8 -/

/-- `_safe_float` expressed through the `float(...)` conversion. -/
theorem safe_float_eq (v : PyValue) (d : ℚ) :
    _safe_float v d =
      match pyFloat v with
      | .ok r => if r ≤ 0 then d else r
      | .error _ => d := by
  cases v <;> rfl

/-- Every `_safe_float` result is the default or strictly positive. -/
theorem safe_float_default_or_pos (v : PyValue) (d : ℚ) :
    _safe_float v d = d ∨ 0 < _safe_float v d := by
  rw [safe_float_eq]
  cases hpf : pyFloat v with
  | error m => exact .inl rfl
  | ok r =>
    by_cases hr : r ≤ 0
    · exact .inl (if_pos hr)
    · refine .inr ?_
      show 0 < if r ≤ 0 then d else r
      rw [if_neg hr]
      exact lt_of_not_le hr

/-- C8: `_safe_float` is a total function of its input (the embedding is
a Lean function, and the Python `try` catches the `TypeError` and
`ValueError` that `float(value)` can raise): it returns the converted
value when the conversion succeeds with a strictly positive result, and
the supplied default when the input is `None`, the conversion raises, or
the result is `≤ 0`. -/
theorem C8_safe_float_total (v : PyValue) (d : ℚ) :
    (v = .none → _safe_float v d = d) ∧
    (∀ m, pyFloat v = .error m → _safe_float v d = d) ∧
    (∀ q, pyFloat v = .ok q → q ≤ 0 → _safe_float v d = d) ∧
    (∀ q, pyFloat v = .ok q → 0 < q → _safe_float v d = q) := by
  have he := safe_float_eq v d
  refine ⟨?_, ?_, ?_, ?_⟩
  · rintro rfl; rfl
  · intro m hm; rw [he, hm]
  · intro q hq hle; rw [he, hq]; exact if_pos hle
  · intro q hq hpos; rw [he, hq]; exact if_neg (not_le.mpr hpos)

/-- Witness for C8: a positive number is passed through, a negative
number and `None` give the default. -/
theorem C8_safe_float_witness :
    _safe_float (.num 3) 7 = 3 ∧ _safe_float (.num (-2)) 7 = 7 ∧
    _safe_float .none 7 = 7 := by
  refine ⟨(C8_safe_float_total (.num 3) 7).2.2.2 3 rfl (by decide),
    (C8_safe_float_total (.num (-2)) 7).2.2.1 (-2) rfl (by decide),
    (C8_safe_float_total .none 7).1 rfl⟩

/-! ## C7 -/

/-- C7: the address builders map the partner fields one-to-one through
Python `or` defaults: every missing text field becomes the empty string,
a missing country code becomes `"ZA"`, a missing warehouse partner name
becomes `"Warehouse"`, a missing shipping partner name the empty string,
and a missing partner raises a `UserError`. -/
theorem C7_prepare_addresses (order : Order) :
    (order.warehouse_partner = none →
      _prepare_collection_address order = .error "No warehouse configured for this order.") ∧
    (order.partner_shipping = none →
      _prepare_delivery_address order = .error "No shipping address configured for this order.") ∧
    (∀ p, order.warehouse_partner = some p →
      ∃ a, _prepare_collection_address order = .ok a ∧
        a.company = pyOr p.name "Warehouse" ∧
        a.street_address = pyOr p.street "" ∧
        a.local_area = pyOr p.street2 "" ∧
        a.city = pyOr p.city "" ∧
        a.zone = pyOr p.state_code "" ∧
        a.country = pyOr p.country_code "ZA" ∧
        a.code = pyOr p.zip_code "" ∧
        (p.name = none → a.company = "Warehouse") ∧
        (p.street = none → a.street_address = "") ∧
        (p.street2 = none → a.local_area = "") ∧
        (p.city = none → a.city = "") ∧
        (p.state_code = none → a.zone = "") ∧
        (p.country_code = none → a.country = "ZA") ∧
        (p.zip_code = none → a.code = "")) ∧
    (∀ p, order.partner_shipping = some p →
      ∃ a, _prepare_delivery_address order = .ok a ∧
        a.company = pyOr p.name "" ∧
        a.street_address = pyOr p.street "" ∧
        a.local_area = pyOr p.street2 "" ∧
        a.city = pyOr p.city "" ∧
        a.zone = pyOr p.state_code "" ∧
        a.country = pyOr p.country_code "ZA" ∧
        a.code = pyOr p.zip_code "" ∧
        (p.name = none → a.company = "") ∧
        (p.country_code = none → a.country = "ZA")) := by
  refine ⟨?_, ?_, ?_, ?_⟩
  · intro h; unfold _prepare_collection_address; rw [h]
  · intro h; unfold _prepare_delivery_address; rw [h]
  · intro p hp
    refine ⟨_, by unfold _prepare_collection_address; rw [hp], rfl, rfl, rfl, rfl, rfl,
      rfl, rfl, ?_, ?_, ?_, ?_, ?_, ?_, ?_⟩ <;>
      · intro h; simp only [h]; rfl
  · intro p hp
    refine ⟨_, by unfold _prepare_delivery_address; rw [hp], rfl, rfl, rfl, rfl, rfl,
      rfl, rfl, ?_, ?_⟩ <;>
      · intro h; simp only [h]; rfl

/-- A partner with no field set. -/
def exEmptyPartner : Partner :=
  { name := none, street := none, street2 := none, city := none, state_code := none,
    country_code := none, zip_code := none, mobile := none, phone := none, email := none }

/-- An order whose warehouse partner has no field set and which has no
shipping partner. -/
def exOrderBare : Order :=
  { id := 1, name := "S00001", warehouse_partner := some exEmptyPartner,
    partner_shipping := none, order_line := [] }

/-- Witness for C7: defaults for a fieldless warehouse partner, and the
`UserError` for a missing shipping partner. -/
theorem C7_prepare_addresses_witness :
    _prepare_collection_address exOrderBare =
      .ok { company := "Warehouse", street_address := "", local_area := "", city := "",
            zone := "", country := "ZA", code := "" } ∧
    _prepare_delivery_address exOrderBare =
      .error "No shipping address configured for this order." :=
  ⟨by
    obtain ⟨a, ha, hco, -⟩ :=
      (C7_prepare_addresses exOrderBare).2.2.1 exEmptyPartner rfl
    exact rfl,
   (C7_prepare_addresses exOrderBare).2.1 rfl⟩

/-! ## C2 -/

/-- C2: evaluation of `_format_http_error` at every status of the
`error_messages` table and at a status outside it. Each tabled message
has at most one `%s` placeholder, yet the code applies
`% (status_code, error_detail)` — a 2-tuple — to it, so Python raises
`TypeError: not all arguments converted during string formatting`
instead of returning the table's message; only the generic default
message (two placeholders) is ever produced. -/
theorem C2_format_http_error_eval :
    _format_http_error 400 "invalid address" =
      .error "TypeError: not all arguments converted during string formatting" ∧
    _format_http_error 401 "detail" =
      .error "TypeError: not all arguments converted during string formatting" ∧
    _format_http_error 403 "detail" =
      .error "TypeError: not all arguments converted during string formatting" ∧
    _format_http_error 429 "detail" =
      .error "TypeError: not all arguments converted during string formatting" ∧
    _format_http_error 500 "detail" =
      .error "TypeError: not all arguments converted during string formatting" ∧
    _format_http_error 502 "detail" =
      .error "TypeError: not all arguments converted during string formatting" ∧
    _format_http_error 503 "detail" =
      .error "TypeError: not all arguments converted during string formatting" ∧
    _format_http_error 404 "not found" =
      .ok "Bobgo API returned error (HTTP 404): not found" :=
  ⟨rfl, rfl, rfl, rfl, rfl, rfl, rfl, rfl⟩

/-! ## C5 -/

/-- The fields of a successfully built rate request, extracted from
`bobgo_rate_request`. -/
theorem rate_request_ok (c : Carrier) (order : Order)
    (req : HttpRequest RatePayload)
    (h : bobgo_rate_request c order = .ok req) :
    req.url = urljoin (bobgo_get_api_base_url c) "/rates-at-checkout" ∧
    req.authorization = c.bobgo_api_key.getD "" ∧
    req.payload.items = (_prepare_order_items order.order_line).1 ∧
    req.payload.declared_value = (_prepare_order_items order.order_line).2 ∧
    req.payload.handling_time = max 0 c.bobgo_handling_time := by
  unfold bobgo_rate_request at h
  by_cases h0 : order.order_line.isEmpty
  · rw [if_pos h0] at h; exact absurd h (by simp)
  · rw [if_neg h0] at h
    cases hc : _prepare_collection_address order with
    | error m => simp [hc] at h
    | ok collection =>
      cases hd : _prepare_delivery_address order with
      | error m => simp [hc, hd] at h
      | ok delivery =>
        simp only [hc, hd] at h
        by_cases hi : (_prepare_order_items order.order_line).1.isEmpty
        · rw [if_pos hi] at h; exact absurd h (by simp)
        · rw [if_neg hi] at h
          have hreq := Except.ok.inj h
          subst hreq
          exact ⟨rfl, rfl, rfl, rfl, rfl⟩

/-- C5 counterexample: for the sandbox carrier `exCarrier`, the
rate-quoting request URL does NOT contain the `/v2` segment — because
`"/rates-at-checkout"` begins with `/`, `urljoin` replaces the base
URL's whole `/v2` path. This refutes the claim that the request URL
always contains the `/v2` API version segment of the base URL. -/
theorem C5_rate_url_counterexample :
    bobgo_rate_request exCarrier exOrder = .ok exRateRequest ∧
    exRateRequest.url = "https://api.sandbox.bobgo.co.za/rates-at-checkout" ∧
    ¬ ("/v2".data <:+: exRateRequest.url.data) :=
  ⟨rfl, rfl, by decide⟩

/-- C5 amended: every rate-quoting request is POSTed to
`urljoin(base_url, "/rates-at-checkout")`; because the path starts with
`/`, the join replaces the base URL's `/v2` path, so the request URL is
`https://api.sandbox.bobgo.co.za/rates-at-checkout` in sandbox mode and
`https://api.bobgo.co.za/rates-at-checkout` otherwise, and never
contains the `/v2` segment. -/
theorem C5_rate_url_amended (c : Carrier) (order : Order)
    (req : HttpRequest RatePayload)
    (h : bobgo_rate_request c order = .ok req) :
    req.url = urljoin (bobgo_get_api_base_url c) "/rates-at-checkout" ∧
    req.url = (if c.bobgo_test_mode then "https://api.sandbox.bobgo.co.za/rates-at-checkout"
               else "https://api.bobgo.co.za/rates-at-checkout") ∧
    ¬ ("/v2".data <:+: req.url.data) := by
  obtain ⟨hu, -⟩ := rate_request_ok c order req h
  refine ⟨hu, ?_, ?_⟩
  · rw [hu]
    unfold bobgo_get_api_base_url
    by_cases hm : c.bobgo_test_mode
    · rw [if_pos hm, if_pos hm]; decide
    · rw [if_neg hm, if_neg hm]; decide
  · rw [hu]
    unfold bobgo_get_api_base_url
    by_cases hm : c.bobgo_test_mode
    · rw [if_pos hm]; decide
    · rw [if_neg hm]; decide

/-- Witness for the amended C5 at the sandbox carrier. -/
theorem C5_rate_url_amended_witness :
    exRateRequest.url = urljoin (bobgo_get_api_base_url exCarrier) "/rates-at-checkout" ∧
    exRateRequest.url = (if exCarrier.bobgo_test_mode
               then "https://api.sandbox.bobgo.co.za/rates-at-checkout"
               else "https://api.bobgo.co.za/rates-at-checkout") ∧
    ¬ ("/v2".data <:+: exRateRequest.url.data) :=
  C5_rate_url_amended exCarrier exOrder exRateRequest rfl

/-! ## C9 -/

theorem pySlice_length_le (s : String) (n : ℕ) : (pySlice s n).length ≤ n := by
  show (s.data.take n).length ≤ n
  rw [List.length_take]
  exact min_le_left _ _

/-- Bounds on every item `_prepare_order_items` produces. -/
theorem prepare_order_items_item_bounds (lines : List OrderLine) :
    ∀ item ∈ (_prepare_order_items lines).1,
      1 ≤ item.quantity ∧ (1/10 : ℚ) ≤ item.length_cm ∧ (1/10 : ℚ) ≤ item.width_cm ∧
      (1/10 : ℚ) ≤ item.height_cm ∧ (1/100 : ℚ) ≤ item.weight_kg ∧
      item.description.length ≤ 100 := by
  induction lines with
  | nil => intro item h; simp [_prepare_order_items] at h
  | cons l ls ih =>
    intro item h
    unfold _prepare_order_items at h
    cases hp : l.product_id with
    | none => simp only [hp] at h; exact ih item h
    | some product =>
      simp only [hp] at h
      by_cases hd : l.is_delivery
      · rw [if_pos hd] at h; exact ih item h
      · rw [if_neg hd] at h
        rcases List.mem_cons.mp h with he | hm
        · subst he
          exact ⟨le_max_left _ _, le_max_left _ _, le_max_left _ _, le_max_left _ _,
            le_max_left _ _, pySlice_length_le _ _⟩
        · exact ih item hm

/-- The accumulated declared value is non-negative: each price is `0`
or strictly positive, each quantity is `1` or strictly positive. -/
theorem prepare_order_items_declared_nonneg (lines : List OrderLine) :
    0 ≤ (_prepare_order_items lines).2 := by
  induction lines with
  | nil => exact le_refl 0
  | cons l ls ih =>
    unfold _prepare_order_items
    cases hp : l.product_id with
    | none => simp only [hp]; exact ih
    | some product =>
      simp only [hp]
      by_cases hd : l.is_delivery
      · rw [if_pos hd]; exact ih
      · rw [if_neg hd]
        show 0 ≤ _safe_float l.price_unit 0 * _safe_float l.product_uom_qty 1 +
          (_prepare_order_items ls).2
        have hprice : 0 ≤ _safe_float l.price_unit 0 := by
          rcases safe_float_default_or_pos l.price_unit 0 with h | h
          · rw [h]
          · exact le_of_lt h
        have hqty : 0 ≤ _safe_float l.product_uom_qty 1 := by
          rcases safe_float_default_or_pos l.product_uom_qty 1 with h | h
          · rw [h]; exact zero_le_one
          · exact le_of_lt h
        exact add_nonneg (mul_nonneg hprice hqty) ih

/-- C9: in every successfully built rate request, each item has an
integer quantity `≥ 1`, dimensions `≥ 0.1` cm, weight `≥ 0.01` kg and a
description of at most 100 characters; the payload's declared value is
non-negative and its handling time is a non-negative integer, whatever
the configured handling time. -/
theorem C9_rate_payload_invariants (c : Carrier) (order : Order)
    (req : HttpRequest RatePayload) (h : bobgo_rate_request c order = .ok req) :
    (∀ item ∈ req.payload.items,
      1 ≤ item.quantity ∧ (1/10 : ℚ) ≤ item.length_cm ∧ (1/10 : ℚ) ≤ item.width_cm ∧
      (1/10 : ℚ) ≤ item.height_cm ∧ (1/100 : ℚ) ≤ item.weight_kg ∧
      item.description.length ≤ 100) ∧
    0 ≤ req.payload.declared_value ∧
    0 ≤ req.payload.handling_time := by
  obtain ⟨-, -, hitems, hdecl, hht⟩ := rate_request_ok c order req h
  refine ⟨?_, ?_, ?_⟩
  · rw [hitems]; exact prepare_order_items_item_bounds order.order_line
  · rw [hdecl]; exact prepare_order_items_declared_nonneg order.order_line
  · rw [hht]; exact le_max_left 0 _

/-- The first item of the example rate request. -/
def exItem : Item := exRateRequest.payload.items.headI

/-- Witness for C9 at the example order's single item. -/
theorem C9_rate_payload_invariants_witness :
    1 ≤ exItem.quantity ∧ (1/10 : ℚ) ≤ exItem.length_cm ∧
    (1/10 : ℚ) ≤ exItem.width_cm ∧ (1/10 : ℚ) ≤ exItem.height_cm ∧
    (1/100 : ℚ) ≤ exItem.weight_kg ∧ exItem.description.length ≤ 100 ∧
    0 ≤ exRateRequest.payload.declared_value ∧
    0 ≤ exRateRequest.payload.handling_time := by
  have h := C9_rate_payload_invariants exCarrier exOrder exRateRequest rfl
  have hm : exItem ∈ exRateRequest.payload.items := List.mem_cons_self _ _
  obtain ⟨h1, h2, h3, h4, h5, h6⟩ := h.1 exItem hm
  exact ⟨h1, h2, h3, h4, h5, h6, h.2.1, h.2.2⟩

/-! ## C6 -/

/-- C6: for a Bobgo carrier whose configuration validates, a rates
response stored under the order/carrier key and still fresh is returned
as is — for any oracle outcome, i.e. without a new API request — and
the cache is unchanged; on a cache miss, a successful
`bobgo_rate_shipment` response is returned and stored under the
order/carrier key with expiry `now + 300`. The last two conjuncts state
the freshness semantics of the modelled cache helper: a value stored at
`t` is found at `now` exactly when `now < t + 300`. -/
theorem C6_rate_shipment_cache (c : Carrier) (order : Order) (cache : Cache)
    (now : ℕ) (hb : c.delivery_type = "bobgo") (c' : Carrier)
    (hv : bobgo_validate_configuration c = .ok (c', true)) :
    (∀ v, cache_get cache now (bobgo_rates_cache_key order.id c.id) = some v →
      ∀ http, rate_shipment c order cache now http = .value v cache c') ∧
    (cache_get cache now (bobgo_rates_cache_key order.id c.id) = none →
      ∀ http a, bobgo_rate_shipment c' order http = .ok a →
        rate_shipment c order cache now http =
          .value a ((bobgo_rates_cache_key order.id c.id, a,
            now + BOBGO_CACHE_DURATION) :: cache) c') ∧
    (∀ (base : Cache) t v, now < t + BOBGO_CACHE_DURATION →
      cache_get (cache_set base t (bobgo_rates_cache_key order.id c.id) v
          BOBGO_CACHE_DURATION) now (bobgo_rates_cache_key order.id c.id) = some v) ∧
    (∀ (base : Cache) t v key, ¬ now < t + BOBGO_CACHE_DURATION →
      cache_get (cache_set base t key v BOBGO_CACHE_DURATION) now key =
        cache_get base now key) := by
  refine ⟨?_, ?_, ?_, ?_⟩
  · intro v hcv http
    unfold rate_shipment
    rw [if_neg (by simp [hb])]
    simp only [hv, hcv]
  · intro hcn http a ha
    unfold rate_shipment
    rw [if_neg (by simp [hb])]
    simp only [hv, hcn, ha]
    rfl
  · intro base t v hlt
    unfold cache_get cache_set
    simp [hlt]
  · intro base t v key hnlt
    unfold cache_get cache_set
    simp [hnlt]

/-- An example rate as parsed from a Bobgo rates response. -/
def exRate : Rate :=
  { service_name := some "Economy"
    description := some "2 to 3 business days"
    total_price := some 100
    min_delivery_date := some "2026-10-14"
    max_delivery_date := some "2026-10-15"
    service_code := some "ECO"
    provider_slug := some "courier-x"
    service_level_code := some "ECO" }

/-- A 200 rates response carrying `exRate`. -/
def exRatesOutcome : HttpOutcome RatesBody := .response 200 "" (.ok ⟨some [exRate]⟩)

/-- The fresh action `bobgo_rate_shipment` produces for the example. -/
def exFreshAction : RateAction :=
  (bobgo_rate_shipment exCarrierValidated exOrder exRatesOutcome).toOption.getD default

/-- A previously cached rate action. -/
def exCachedAction : RateAction := { order_id := 42, carrier_id := 7, lines := [] }

/-- The cache key of `exOrder`/`exCarrier`. -/
def exCacheKey : String := bobgo_rates_cache_key exOrder.id exCarrier.id

/-- Witness for C6: a fresh cache entry is returned without a request;
an empty cache leads to the fresh response being returned and stored. -/
theorem C6_rate_shipment_cache_witness :
    rate_shipment exCarrier exOrder [(exCacheKey, exCachedAction, 100)] 50 exRatesOutcome =
      .value exCachedAction [(exCacheKey, exCachedAction, 100)] exCarrierValidated ∧
    rate_shipment exCarrier exOrder [] 50 exRatesOutcome =
      .value exFreshAction [(exCacheKey, exFreshAction, 50 + BOBGO_CACHE_DURATION)]
        exCarrierValidated := by
  have h1 := C6_rate_shipment_cache exCarrier exOrder
    [(exCacheKey, exCachedAction, 100)] 50 rfl exCarrierValidated (by rfl)
  have h2 := C6_rate_shipment_cache exCarrier exOrder [] 50 rfl exCarrierValidated (by rfl)
  exact ⟨h1.1 exCachedAction rfl exRatesOutcome, h2.2.1 rfl exRatesOutcome exFreshAction rfl⟩

/-! ## C4 -/

/-- C4: `action_apply_rate` raises a `UserError` when the wizard lacks
an order or a carrier, and when `set_delivery_line` reports failure;
when `set_delivery_line` succeeds and leaves a delivery line on the
order, the chosen line's `total_price` is written onto every delivery
line's `price_unit` and a window-close action is returned. -/
theorem C4_action_apply_rate (w : RateWizard) (line : ChooseRateLine)
    (sdl : SaleOrder → Carrier → ℚ → Bool × SaleOrder) :
    (w.order_id = none ∨ w.carrier_id = none →
      action_apply_rate w line sdl = .raised "Invalid rate selection data.") ∧
    (∀ o c, w.order_id = some o → w.carrier_id = some c →
      ((sdl o c line.total_price).1 = false →
        ∃ m, action_apply_rate w line sdl = .raised m) ∧
      ((sdl o c line.total_price).1 = true →
        (∃ l ∈ (sdl o c line.total_price).2.lines, l.is_delivery = true) →
        ∃ o2, action_apply_rate w line sdl = .closeWindow o2 ∧
          (∀ l ∈ o2.lines, l.is_delivery = true → l.price_unit = line.total_price) ∧
          ∃ l ∈ o2.lines, l.is_delivery = true ∧ l.price_unit = line.total_price)) := by
  obtain ⟨wo, wc⟩ := w
  constructor
  · rintro (h | h)
    · simp only at h
      subst h
      cases wc <;> rfl
    · simp only at h
      subst h
      cases wo <;> rfl
  · intro o c ho hc
    simp only at ho hc
    subst ho; subst hc
    rcases hS : sdl o c line.total_price with ⟨b, o'⟩
    cases b with
    | false =>
      refine ⟨fun _ => ⟨"Error applying shipping rate: " ++
        "Failed to apply shipping rate to the order.", ?_⟩, fun hT _ => by simp at hT⟩
      simp [action_apply_rate, hS]
    | true =>
      refine ⟨fun hF => by simp at hF, fun _ hdl => ?_⟩
      obtain ⟨l0, hl0, hl0d⟩ := hdl
      simp only [hS] at hl0 hl0d
      have hany : o'.lines.any (·.is_delivery) = true :=
        List.any_eq_true.mpr ⟨l0, hl0, by simp [hl0d]⟩
      refine ⟨{ o' with lines := o'.lines.map fun l =>
          if l.is_delivery then
            { l with
                line_name := if !line.service_name.data.isEmpty ∧
                    line.service_name ≠ "Unknown Service" then
                    c.name ++ " - " ++ line.service_name else c.name
                price_unit := line.total_price }
          else l }, ?_, ?_, ?_⟩
      · show action_apply_rate ⟨some o, some c⟩ line sdl = _
        simp only [action_apply_rate, hS, Bool.not_true, Bool.false_eq_true,
          if_false, hany, if_true]
      · intro l' hl' hd'
        simp only [List.mem_map] at hl'
        obtain ⟨l, hl, hfl⟩ := hl'
        by_cases hld : l.is_delivery
        · rw [if_pos hld] at hfl
          rw [← hfl]
        · rw [if_neg hld] at hfl
          rw [← hfl] at hd'
          exact absurd hd' hld
      · refine ⟨{ l0 with
            line_name := if !line.service_name.data.isEmpty ∧
                line.service_name ≠ "Unknown Service" then
                c.name ++ " - " ++ line.service_name else c.name
            price_unit := line.total_price }, ?_, by simp [hl0d], rfl⟩
        refine List.mem_map.mpr ⟨l0, hl0, ?_⟩
        rw [if_pos hl0d]

/-- The example sale order before the wizard applies a rate. -/
def exSaleOrder : SaleOrder :=
  { name := "S00042", lines := [{ is_delivery := false, line_name := "Widget", price_unit := 200 }] }

/-- The order state `set_delivery_line` leaves: a delivery line added. -/
def exSaleOrderAfter : SaleOrder :=
  { name := "S00042",
    lines := [{ is_delivery := false, line_name := "Widget", price_unit := 200 },
              { is_delivery := true, line_name := "Delivery", price_unit := 0 }] }

/-- A `set_delivery_line` model that succeeds and adds a delivery line. -/
def exSdl : SaleOrder → Carrier → ℚ → Bool × SaleOrder := fun _ _ _ => (true, exSaleOrderAfter)

/-- The example wizard. -/
def exWizard : RateWizard := { order_id := some exSaleOrder, carrier_id := some exCarrier }

/-- The chosen rate line. -/
def exChooseLine : ChooseRateLine := { service_name := "Economy", total_price := 100 }

/-- Witness for C4: applying the chosen rate yields the window-close
action with the delivery line repriced at 100, and a wizard without an
order raises. -/
theorem C4_action_apply_rate_witness :
    action_apply_rate exWizard exChooseLine exSdl =
      .closeWindow
        { name := "S00042",
          lines := [{ is_delivery := false, line_name := "Widget", price_unit := 200 },
                    { is_delivery := true, line_name := "Bobgo - Economy", price_unit := 100 }] } ∧
    action_apply_rate { order_id := none, carrier_id := none } exChooseLine exSdl =
      .raised "Invalid rate selection data." := by
  obtain ⟨o2, h, -, -⟩ :=
    ((C4_action_apply_rate exWizard exChooseLine exSdl).2 exSaleOrder exCarrier rfl rfl).2 rfl
      ⟨{ is_delivery := true, line_name := "Delivery", price_unit := 0 },
        List.mem_cons_of_mem _ (List.mem_cons_self _ _), rfl⟩
  exact ⟨rfl,
    (C4_action_apply_rate { order_id := none, carrier_id := none } exChooseLine exSdl).1
      (Or.inl rfl)⟩

/-! ## C1 -/

/-- C1: for a picking that books successfully — configuration valid,
payload built, the `/rates` call returning a non-error status with a
non-empty rate list, and the `/shipments` call returning a non-error
status — `bobgo_send_shipping` selects the first returned rate, writes
the shipment response's `id` into `bobgo_shipment_id` and its
`tracking_reference` into `carrier_tracking_ref`, and appends to the
returned list an entry whose `exact_price` is the first rate's
`total_price` (`0.0` when absent) and whose `tracking_number` is the
tracking reference. -/
theorem C1_send_shipping_success (c : Carrier) (p : Picking) (calls : BookCalls)
    (c' : Carrier) (hv : bobgo_validate_configuration c = .ok (c', true))
    (rp : ShipmentRatePayload) (hp : _prepare_shipment_rate_payload p = .ok rp)
    (r : Rate) (rs : List Rate) (s1 : ℕ) (d1 : String)
    (h1 : calls.rateOutcome = .response s1 d1 (.ok { rates := some (r :: rs) }))
    (hs1 : raisesForStatus s1 = false)
    (sb : ShipmentBody) (s2 : ℕ) (d2 : String)
    (h2 : calls.shipmentOutcome = .response s2 d2 (.ok sb))
    (hs2 : raisesForStatus s2 = false) :
    bobgo_send_shipping_one c p calls =
      .ok ({ p with bobgo_shipment_id := sb.id,
                    carrier_tracking_ref := sb.tracking_reference },
           { exact_price := r.total_price.getD 0,
             tracking_number := sb.tracking_reference }, c') ∧
    (∀ rest out cf, bobgo_send_shipping c' rest = .ok (out, cf) →
      bobgo_send_shipping c ((p, calls) :: rest) =
        .ok (({ p with bobgo_shipment_id := sb.id,
                       carrier_tracking_ref := sb.tracking_reference },
              { exact_price := r.total_price.getD 0,
                tracking_number := sb.tracking_reference }) :: out, cf)) := by
  have hone : bobgo_send_shipping_one c p calls =
      .ok ({ p with bobgo_shipment_id := sb.id,
                    carrier_tracking_ref := sb.tracking_reference },
           { exact_price := r.total_price.getD 0,
             tracking_number := sb.tracking_reference }, c') := by
    unfold bobgo_send_shipping_one
    simp only [hv, hp, h1, h2, hs1, hs2, _prepare_shipment_payload,
      Bool.false_eq_true, if_false]
  refine ⟨hone, ?_⟩
  intro rest out cf hrest
  show (match bobgo_send_shipping_one c p calls with
    | Except.error e => (Except.error e :
        Except PyExc (List (Picking × DeliveryResult) × Carrier))
    | Except.ok (p', r', c2) =>
      match bobgo_send_shipping c2 rest with
      | Except.error e => Except.error e
      | Except.ok (outl, cf2) => Except.ok ((p', r') :: outl, cf2)) = _
  simp only [hone, hrest]

/-- An example stock move carrying the example product. -/
def exMove : Move := { product := some exProduct, sale_line_price_total := some 200 }

/-- An example delivery picking. -/
def exPicking : Picking :=
  { name := "WH-OUT-00001"
    partner := some exPartner
    warehouse_partner := some exPartner
    carrier_tracking_ref := none
    bobgo_shipment_id := none
    moves := [exMove] }

/-- The shipment body the example `/shipments` call returns. -/
def exShipBody : ShipmentBody :=
  { id := some "SHIP123", tracking_reference := some "TRK123" }

/-- The two successful POST outcomes for the example picking. -/
def exBookCalls : BookCalls :=
  { rateOutcome := .response 200 "" (.ok { rates := some [exRate] })
    shipmentOutcome := .response 200 "" (.ok exShipBody) }

/-- The shipment-rate payload built for the example picking. -/
def exShipRatePayload : ShipmentRatePayload :=
  (_prepare_shipment_rate_payload exPicking).toOption.getD default

/-- Witness for C1 at the example picking. -/
theorem C1_send_shipping_success_witness :
    bobgo_send_shipping exCarrier [(exPicking, exBookCalls)] =
      .ok ([({ exPicking with
                 bobgo_shipment_id := exShipBody.id
                 carrier_tracking_ref := exShipBody.tracking_reference },
             { exact_price := exRate.total_price.getD 0
               tracking_number := exShipBody.tracking_reference })],
           exCarrierValidated) := by
  have h := C1_send_shipping_success exCarrier exPicking exBookCalls
    exCarrierValidated (by rfl) exShipRatePayload (by rfl)
    exRate [] 200 "" rfl (by decide) exShipBody 200 "" rfl (by decide)
  exact h.2 [] [] exCarrierValidated rfl

/-! ## C3 -/

/-- An example picking that already has a tracking reference. -/
def exPickingTracked : Picking :=
  { exPicking with carrier_tracking_ref := some "TRK999", bobgo_shipment_id := some "SHIP999" }

/-- C3 counterexample: cancelling a tracked shipment whose
`/shipments/cancel` call answers HTTP 500 raises nothing — the
embedding of `bobgo_cancel_shipment` is a total function (the Python
loop catches every exception and a non-200 status is only recorded):
the call returns the unchanged picking and `False`, contradicting the
claim that an HTTP error status results in a raised user error for
every API operation. -/
theorem C3_cancel_no_error_counterexample :
    bobgo_cancel_shipment exCarrier [(exPickingTracked, .response 500)] =
      ([exPickingTracked], false) := rfl

/-- C3 amended: rate quoting raises a `UserError` on a timeout, and on
an HTTP error status outside the message table {400, 401, 403, 429,
500, 502, 503} — for a status inside the table the message formatting
itself raises a `TypeError`, so no user error reaches the caller.
Shipment booking wraps every failure, HTTP error statuses and timeouts
included, in a `UserError`. Shipment cancellation never raises on an
HTTP error status or timeout: it records the picking as a failed
cancellation and returns `False`. -/
theorem C3_error_raising_amended :
    (∀ c order req, bobgo_rate_request c order = .ok req →
      bobgo_rate_shipment c order .timeout =
        .error (.userError "Shipping rate request timed out. Please try again.")) ∧
    (∀ c order req s d body, bobgo_rate_request c order = .ok req →
      raisesForStatus s = true →
      (s ∉ formatTableStatuses →
        ∃ m, bobgo_rate_shipment c order (.response s d body) = .error (.userError m)) ∧
      (s ∈ formatTableStatuses →
        ∃ m, bobgo_rate_shipment c order (.response s d body) = .error (.typeError m))) ∧
    (∀ c p calls e, bobgo_send_shipping_one c p calls = .error e →
      ∃ m, e = .userError m) ∧
    (∀ c p c' rp so, bobgo_validate_configuration c = .ok (c', true) →
      _prepare_shipment_rate_payload p = .ok rp →
      bobgo_send_shipping_one c p { rateOutcome := .timeout, shipmentOutcome := so } =
        .error (bookFailure p.name .timeoutExc) ∧
      (∀ s d body, raisesForStatus s = true →
        bobgo_send_shipping_one c p
          { rateOutcome := .response s d body, shipmentOutcome := so } =
          .error (bookFailure p.name (.httpError s)))) ∧
    (∀ c p s rest, strTruthy p.carrier_tracking_ref = true → s ≠ 200 →
      bobgo_cancel_shipment c ((p, .response s) :: rest) =
        (p :: (bobgo_cancel_loop rest).1, false) ∧
      bobgo_cancel_shipment c ((p, .timeout) :: rest) =
        (p :: (bobgo_cancel_loop rest).1, false)) := by
  refine ⟨?_, ?_, ?_, ?_, ?_⟩
  · intro c order req h
    simp [bobgo_rate_shipment, h]
  · intro c order req s d body h hs
    constructor
    · intro hnot
      simp only [formatTableStatuses, List.mem_cons, List.not_mem_nil, or_false,
        not_or] at hnot
      obtain ⟨n400, n401, n403, n429, n500, n502, n503⟩ := hnot
      have hm : error_messages_get s = "Bobgo API returned error (HTTP %s): %s" := by
        unfold error_messages_get
        rw [if_neg n400, if_neg n401, if_neg n403, if_neg n429, if_neg n500,
          if_neg n502, if_neg n503]
      have hfmt : _format_http_error s d =
          .ok (interleave ((splitPercentS
            "Bobgo API returned error (HTTP %s): %s".data).map String.mk)
            [toString s, d]) := by
        unfold _format_http_error
        rw [hm]
        rfl
      have hres : bobgo_rate_shipment c order (.response s d body) =
          .error (.userError (interleave ((splitPercentS
            "Bobgo API returned error (HTTP %s): %s".data).map String.mk)
            [toString s, d])) := by
        simp [bobgo_rate_shipment, h, hs, hfmt]
      exact ⟨_, hres⟩
    · intro hmem
      simp only [formatTableStatuses, List.mem_cons, List.not_mem_nil, or_false] at hmem
      have hfmt : ∃ msg, _format_http_error s d = .error msg := by
        rcases hmem with rfl | rfl | rfl | rfl | rfl | rfl | rfl <;> exact ⟨_, rfl⟩
      obtain ⟨msg, hfmt⟩ := hfmt
      exact ⟨msg, by simp [bobgo_rate_shipment, h, hs, hfmt]⟩
  · intro c p calls e h
    unfold bobgo_send_shipping_one at h
    repeat' split at h
    all_goals
      first
        | (obtain rfl := Except.error.inj h; exact ⟨_, rfl⟩)
        | simp at h
  · intro c p c' rp so hv hp
    constructor
    · simp [bobgo_send_shipping_one, hv, hp]
    · intro s d body hs
      simp [bobgo_send_shipping_one, hv, hp, hs]
  · intro c p s rest ht hs200
    have hloop : bobgo_cancel_loop ((p, CancelOutcome.response s) :: rest) =
        (p :: (bobgo_cancel_loop rest).1, (bobgo_cancel_loop rest).2 + 1) := by
      simp [bobgo_cancel_loop, ht, hs200]
    have hloop2 : bobgo_cancel_loop ((p, CancelOutcome.timeout) :: rest) =
        (p :: (bobgo_cancel_loop rest).1, (bobgo_cancel_loop rest).2 + 1) := by
      simp [bobgo_cancel_loop, ht]
    constructor
    · simp [bobgo_cancel_shipment, hloop]
    · simp [bobgo_cancel_shipment, hloop2]

/-- Witness for the amended C3: a concrete rate-quoting timeout, a
concrete booking timeout and a concrete failed cancellation. -/
theorem C3_error_raising_amended_witness :
    bobgo_rate_shipment exCarrier exOrder .timeout =
      .error (.userError "Shipping rate request timed out. Please try again.") ∧
    bobgo_send_shipping_one exCarrier exPicking
      { rateOutcome := .timeout, shipmentOutcome := .timeout } =
      .error (bookFailure exPicking.name .timeoutExc) ∧
    bobgo_cancel_shipment exCarrier [(exPickingTracked, .response 500)] =
      ([exPickingTracked], false) := by
  refine ⟨C3_error_raising_amended.1 exCarrier exOrder exRateRequest rfl, ?_, ?_⟩
  · exact (C3_error_raising_amended.2.2.2.1 exCarrier exPicking exCarrierValidated
      exShipRatePayload .timeout (by rfl) (by rfl)).1
  · exact (C3_error_raising_amended.2.2.2.2 exCarrier exPickingTracked 500 [] rfl
      (by decide)).1

end Bobgo
